import Mathlib

/-!
Verification development for the dynamic game NPC dialogue service
(`src/components/rag_api/runtime/index.py` and
`src/components/text_api/runtime/index.py`).

The Python Lambda handlers are shallowly embedded: each handler-side
function becomes a pure Lean function.  All interaction with external
services (secret store, OpenSearch HEAD probe and search POST, Bedrock
embedding and text-generation models, Polly speech synthesis) is mediated
by an `Env` oracle that fixes, per request, the outcome every remote call
would produce; along with its result each embedded function returns the
ordered list of remote `Call`s it performed, so that ordering and
"no call happens" properties can be stated.  Python exceptions are
modelled by the `PyErr` error component of `Except`: a function whose
Python original can raise returns `Except PyErr _`, and an error value
that reaches the top of `lambda_handler` models an unhandled exception
escaping the handler.
-/

/-- JSON values, as produced by the handlers (only the shapes that occur:
strings, integers, and objects as ordered key/value lists). -/
inductive JVal where
  | s (v : String)
  | n (v : Int)
  | obj (kvs : List (String × JVal))

/-- Escape one character the way `json.dumps` escapes it inside a string
literal (the characters arising in this code base: backslash, quote, and
the common control characters). -/
def escapeChar (c : Char) : String :=
  if c = '\\' then "\\\\"
  else if c = '\"' then "\\\""
  else if c = '\n' then "\\n"
  else if c = '\t' then "\\t"
  else if c = '\r' then "\\r"
  else String.singleton c

/-- Escape a string for inclusion in a JSON string literal. -/
def escapeString (s : String) : String :=
  String.join (s.data.map escapeChar)

mutual

/-- Model of Python `json.dumps` with its default separators
(`", "` between items, `": "` between a key and a value). -/
def dumps : JVal → String
  | .s v => "\"" ++ escapeString v ++ "\""
  | .n v => toString v
  | .obj kvs => "\x7b" ++ dumpsObj kvs ++ "\x7d"

/-- Serialize the members of a JSON object, comma separated. -/
def dumpsObj : List (String × JVal) → String
  | [] => ""
  | [(k, v)] => "\"" ++ escapeString k ++ "\": " ++ dumps v
  | (k, v) :: rest => "\"" ++ escapeString k ++ "\": " ++ dumps v ++ ", " ++ dumpsObj rest

end

/-- Python `body[key]` / `key in body` on a parsed JSON value: key lookup
for objects (first occurrence; Python dict keys are unique), `none` for
non-objects. -/
def jlookup : JVal → String → Option JVal
  | .obj kvs, k => kvs.lookup k
  | _, _ => none

/-- Python `body.get(key, default)` followed by use in an f-string:
a string value is used as is; a missing key yields the default.
(A non-string value would be stringified by Python; its serialization
stands in for `str`.  Every claim instantiates these fields as strings.) -/
def jStrD (v : Option JVal) (dflt : String) : String :=
  match v with
  | some (.s s) => s
  | some v => dumps v
  | none => dflt

/-- The Lambda proxy response dictionary produced by `build_response`. -/
structure HttpResponse where
  statusCode : Nat
  headers : List (String × String)
  body : String
deriving Repr, DecidableEq

/-- `build_response` (rag_api `index.py`, lines 97-104): wraps a body
dictionary into the HTTP envelope: status code 200, a Content-Type header
of application/json, and the JSON-serialized body. -/
def build_response (body : JVal) : HttpResponse :=
  { statusCode := 200
  , headers := [("Content-Type", "application/json")]
  , body := dumps body }

/-- `validate_inputs` (rag_api `index.py`, lines 107-115): for each
required field (only `question`), if it is absent from the request body,
return the validation error response; otherwise return Python `None`. -/
def validate_inputs (body : JVal) : Option HttpResponse :=
  if (jlookup body "question").isSome then
    none
  else
    some (build_response (.obj
      [ ("status", .s "error")
      , ("message", .s "question missing in request payload") ]))

/-- A Python exception value, as far as this code observes one: the
exception class name and the message.  `clientError m` is a botocore
`ClientError` whose `e.response["Error"]["Message"]` is `m` (the only
exception class the handlers catch selectively); `indexError`,
`valueError` and `exn` cover the remaining raises the embedding models. -/
inductive PyErr where
  | clientError (message : String)
  | indexError (message : String)
  | valueError (message : String)
  | exn (name message : String)
deriving Repr, DecidableEq

/-- `type(e).__name__` of a modelled exception. -/
def PyErr.typeName : PyErr → String
  | .clientError _ => "ClientError"
  | .indexError _ => "IndexError"
  | .valueError _ => "ValueError"
  | .exn name _ => name

/-- `str(e)` of a modelled exception. -/
def PyErr.message : PyErr → String
  | .clientError m => m
  | .indexError m => m
  | .valueError m => m
  | .exn _ m => m

/-- An embedding vector (`response.get("embedding")`): an ordered list of
numbers.  The handler never computes with the components, so the float
entries are carried as integers. -/
abbrev Vector := List Int

/-- One OpenSearch hit as the handler reads it: `_score`,
`_source.file_name` and `_source.passage`. -/
structure Hit where
  score : Int
  file_name : String
  passage : String
deriving Repr, DecidableEq

/-- The parsed body of the search POST response; the handler reads
`response["hits"]["hits"]`. -/
structure SearchResponse where
  hits : List Hit
deriving Repr, DecidableEq

/-- The JSON body `get_hits` POSTs to the search URL:
`{"size": k, "query": {"knn": {"vector_field": {"vector": ..., "k": k}}}}`.
The `vector` field holds whatever Python value `get_embedding` returned:
either an embedding vector or — when the embedding call failed — the
error-response dictionary that `get_embedding` returns instead. -/
structure SearchQuery where
  size : Nat
  vector : Sum Vector HttpResponse
  k : Nat
deriving Repr, DecidableEq

/-- One remote call performed by the handler, in the order issued.
`pollySound`/`pollyViseme` carry the Python value passed as `Text`
(a string, or — on an error path — a response dictionary). -/
inductive Call where
  | secretLookup (secretId region : String)
  | headProbe (url username password : String) (timeout : Nat)
  | invokeEmbedding (inputText modelId : String)
  | searchPost (url username password : String) (query : SearchQuery) (timeout : Nat)
  | invokeTextModel (prompt modelId : String) (maxTokensToSample : Nat)
  | pollySound (text : Sum String HttpResponse) (voiceId engine : String)
  | pollyViseme (text : Sum String HttpResponse) (voiceId engine : String)
deriving Repr, DecidableEq

/-- `True` exactly on embedding-model invocations. -/
def Call.isEmbeddingCall : Call → Bool
  | .invokeEmbedding _ _ => true
  | _ => false

/-- `True` exactly on k-NN search POSTs. -/
def Call.isSearchCall : Call → Bool
  | .searchPost _ _ _ _ _ => true
  | _ => false

/-- `True` exactly on text-generation-model invocations. -/
def Call.isTextModelCall : Call → Bool
  | .invokeTextModel _ _ _ => true
  | _ => false

/-- The per-request oracle: the outcome each remote service would produce
if called during this request.  `secretResult` and `embedResult` carry a
`ClientError` message on the error side (the only exception those call
sites catch); the other fields carry a full `PyErr` since their call
sites do not catch at all (`headStatus`, `searchResult`,
`generateResult`) or catch every exception (`soundResult`,
`visemeResult`). -/
structure Env where
  secretResult : Except String (String × String)
  headStatus : Except PyErr Nat
  embedResult : Except String Vector
  searchResult : Except PyErr SearchResponse
  generateResult : Except PyErr String
  soundResult : Except PyErr (List (Fin 256))
  visemeResult : Except PyErr (List (Fin 256))

/-- The environment-variable configuration read at process start. -/
structure Config where
  textModelId : String
  embeddingModelId : String
  opensearchEndpoint : String
  opensearchSecret : String
  opensearchIndex : String
  region : String
deriving Repr, DecidableEq

/-- `get_credentials` (rag_api `index.py`, lines 131-145): looks the
secret up; on success returns the `(USERNAME, PASSWORD)` pair, on a
`ClientError` logs and returns the error-response dictionary built from
the store's message.  Note the two branches return values of different
Python types (a 2-tuple vs. a response dict). -/
def get_credentials (secretId region : String) (env : Env) :
    Sum (String × String) HttpResponse × List Call :=
  match env.secretResult with
  | .ok (u, p) => (.inl (u, p), [.secretLookup secretId region])
  | .error m =>
      (.inr (build_response (.obj [("status", .s "error"), ("message", .s m)])),
       [.secretLookup secretId region])

/-- The body of the index-unavailable error response built by
`verify_index`. -/
def notHydratedBody : JVal :=
  .obj
    [ ("status", .s "error")
    , ("message", .s "The vector store is not yet hydrated, and cannot be queried for context. Please contact your System Administrator to ingest RAG data.") ]

/-- `verify_index` (rag_api `index.py`, lines 118-128): HEAD-probes
`endpoint/index` with a 10 second timeout; on a non-200 status returns
the not-hydrated error response, on 200 returns Python `None`.  An
exception from the HEAD request itself propagates (nothing is caught). -/
def verify_index (endpoint index username password : String) (env : Env) :
    Except PyErr (Option HttpResponse) × List Call :=
  let url := endpoint ++ "/" ++ index
  match env.headStatus with
  | .error e => (.error e, [.headProbe url username password 10])
  | .ok status =>
      if status ≠ 200 then
        (.ok (some (build_response notHydratedBody)), [.headProbe url username password 10])
      else
        (.ok none, [.headProbe url username password 10])

/-- `get_embedding` (rag_api `index.py`, lines 148-172): invokes the
embedding model on `{"inputText": passage}`; on success returns the
embedding vector, on a `ClientError` logs and returns the error-response
dictionary built from the service's message (again two Python return
types). -/
def get_embedding (modelId passage : String) (env : Env) :
    Sum Vector HttpResponse × List Call :=
  match env.embedResult with
  | .ok v => (.inl v, [.invokeEmbedding passage modelId])
  | .error m =>
      (.inr (build_response (.obj [("status", .s "error"), ("message", .s m)])),
       [.invokeEmbedding passage modelId])

/-- `get_hits` (rag_api `index.py`, lines 175-195): builds the k-NN
query with `k = 3` (both as `size` and as the knn `k`), embedding the
query string first; the `vector` field receives whatever `get_embedding`
returned — including, on embedding failure, the error-response
dictionary — and the search POST is issued unconditionally with a
10 second timeout; returns `response["hits"]["hits"]`. -/
def get_hits (embeddingModelId query url username password : String) (env : Env) :
    Except PyErr (List Hit) × List Call :=
  let (emb, tr1) := get_embedding embeddingModelId query env
  let searchQuery : SearchQuery := { size := 3, vector := emb, k := 3 }
  match env.searchResult with
  | .error e => (.error e, tr1 ++ [.searchPost url username password searchQuery 10])
  | .ok resp => (.ok resp.hits, tr1 ++ [.searchPost url username password searchQuery 10])

/-- The base64 alphabet (RFC 4648), as used by Python `base64.b64encode`:
sextet value to character. -/
def b64char (n : Nat) : Char :=
  if n < 26 then Char.ofNat (65 + n)
  else if n < 52 then Char.ofNat (97 + (n - 26))
  else if n < 62 then Char.ofNat (48 + (n - 52))
  else if n = 62 then '+'
  else '/'

/-- Character to sextet value: the client-side inverse of `b64char`
(`none` on a character outside the alphabet). -/
def b64val (c : Char) : Option Nat :=
  if 65 ≤ c.toNat ∧ c.toNat ≤ 90 then some (c.toNat - 65)
  else if 97 ≤ c.toNat ∧ c.toNat ≤ 122 then some (c.toNat - 97 + 26)
  else if 48 ≤ c.toNat ∧ c.toNat ≤ 57 then some (c.toNat - 48 + 52)
  else if c = '+' then some 62
  else if c = '/' then some 63
  else none

/-- Standard base64 encoding of a byte sequence with `=` padding, as
performed by Python `base64.b64encode` on the audio and viseme buffers in
`synthesize_speech`: three bytes become four alphabet characters; a
1-byte remainder becomes two characters and `==`, a 2-byte remainder
three characters and `=`. -/
def b64encode : List (Fin 256) → List Char
  | [] => []
  | [b1] =>
      [b64char (b1.val / 4), b64char (b1.val % 4 * 16), '=', '=']
  | [b1, b2] =>
      [b64char (b1.val / 4), b64char (b1.val % 4 * 16 + b2.val / 16),
       b64char (b2.val % 16 * 4), '=']
  | b1 :: b2 :: b3 :: rest =>
      b64char (b1.val / 4) :: b64char (b1.val % 4 * 16 + b2.val / 16) ::
      b64char (b2.val % 16 * 4 + b3.val / 64) :: b64char (b3.val % 64) ::
      b64encode rest

/-- Base64 decoding (the client side of the round trip): consumes four
characters at a time, honouring `=` padding on the final group; returns
the byte values, or `none` on malformed input. -/
def b64decode : List Char → Option (List Nat)
  | [] => some []
  | c1 :: c2 :: c3 :: c4 :: rest =>
      match b64val c1, b64val c2 with
      | some w, some x =>
          if c3 = '=' then
            if c4 = '=' ∧ rest = [] then some [w * 4 + x / 16] else none
          else
            match b64val c3 with
            | some y =>
                if c4 = '=' then
                  if rest = [] then some [w * 4 + x / 16, x % 16 * 16 + y / 4]
                  else none
                else
                  match b64val c4, b64decode rest with
                  | some z, some bs =>
                      some ((w * 4 + x / 16) :: (x % 16 * 16 + y / 4) ::
                            (y % 4 * 64 + z) :: bs)
                  | _, _ => none
            | none => none
      | _, _ => none
  | _ => none

/-- `base64.b64encode(buf).decode("utf-8")`: the encoded buffer as a
string. -/
def b64encodeStr (bs : List (Fin 256)) : String :=
  String.mk (b64encode bs)

/-- `synthesize_speech` (rag_api `index.py`, lines 56-95): builds the
`speech_info` dictionary.  The audio (pcm) synthesis call and the viseme
synthesis call are attempted independently, each under its own
catch-every-exception handler: a success stores `..._status = "ok"` and
the base64-encoded payload, a failure stores `..._status = "error"` and
the formatted exception text.  `text` is the Python value the caller
passes (the handler passes `get_prediction`'s result, which on some
paths is a response dictionary rather than a string). -/
def synthesize_speech (text : Sum String HttpResponse) (voiceId voiceEngine : String)
    (env : Env) : List (String × JVal) × List Call :=
  let soundKvs : List (String × JVal) :=
    match env.soundResult with
    | .ok buf =>
        [("sound_status", .s "ok"), ("sound_response", .s (b64encodeStr buf))]
    | .error e =>
        [("sound_status", .s "error"),
         ("sound_error", .s ("Audio Exception: " ++ e.typeName ++ " Message: " ++ e.message))]
  let visemeKvs : List (String × JVal) :=
    match env.visemeResult with
    | .ok buf =>
        [("viseme_status", .s "ok"), ("viseme_response", .s (b64encodeStr buf))]
    | .error e =>
        [("viseme_status", .s "error"),
         ("viseme_error", .s ("Viseme Exception: " ++ e.typeName ++ " Message: " ++ e.message))]
  (soundKvs ++ visemeKvs,
   [.pollySound text voiceId voiceEngine, .pollyViseme text voiceId voiceEngine])

/-- Python `OPENSEARCH_ENDPOINT.startswith("https://")`, phrased over the
character list so that it evaluates by `decide`. -/
def startswithHttps (s : String) : Bool :=
  decide (s.data.take 8 = "https://".data)

deriving instance DecidableEq for Except

/-- The fixed text of the prompt template before the interpolated
context passage (rag_api `index.py`, lines 220-222). -/
def promptPre : String :=
  "\n\nHuman: Your name is Ada, and you are a helpful assistant, helping a Human answer questions with the tone of a stereotypical pirate. Use the following as additional context to provide a concise answer to the question at the end, but don\x27t say that you\x27re using additional context.\n\n    <reference>\n    "

/-- The fixed text between the context passage and the question
(rag_api `index.py`, lines 224-226). -/
def promptMid : String :=
  "\n    </reference>\n    \n    Question: "

/-- The fixed text after the question (rag_api `index.py`, line 226). -/
def promptSuf : String :=
  "\n\nAssistant:"

/-- `get_prediction` (rag_api `index.py`, lines 198-242), the RAG
pipeline.  Python returns either the generated answer string or, on the
handled error paths, a response dictionary; unhandled exceptions
propagate:
* `username, password = get_credentials(...)` — when the secret lookup
  failed, `get_credentials` returned the error-response dictionary, and
  unpacking its three keys (`statusCode`, `headers`, `body`) into two
  targets raises `ValueError`;
* a failed index probe returns the not-hydrated response;
* `hits[0]` on an empty hit list raises `IndexError`;
* the text-model invocation is not wrapped in any handler. -/
def get_prediction (cfg : Config) (question : String) (env : Env) :
    Except PyErr (Sum String HttpResponse) × List Call :=
  let domainEndpoint :=
    if startswithHttps cfg.opensearchEndpoint then cfg.opensearchEndpoint
    else "https://" ++ cfg.opensearchEndpoint
  let (creds, tr1) := get_credentials cfg.opensearchSecret cfg.region env
  match creds with
  | .inr _ =>
      (.error (.valueError "too many values to unpack (expected 2)"), tr1)
  | .inl (username, password) =>
      let (vres, tr2) := verify_index domainEndpoint cfg.opensearchIndex username password env
      match vres with
      | .error e => (.error e, tr1 ++ tr2)
      | .ok (some resp) => (.ok (.inr resp), tr1 ++ tr2)
      | .ok none =>
          let searchUrl := domainEndpoint ++ "/" ++ cfg.opensearchIndex ++ "/_search"
          let (hitsRes, tr3) :=
            get_hits cfg.embeddingModelId question searchUrl username password env
          match hitsRes with
          | .error e => (.error e, tr1 ++ tr2 ++ tr3)
          | .ok [] =>
              (.error (.indexError "list index out of range"), tr1 ++ tr2 ++ tr3)
          | .ok (top :: _) =>
              let prompt := promptPre ++ top.passage ++ promptMid ++ question ++ promptSuf
              match env.generateResult with
              | .error e =>
                  (.error e,
                   tr1 ++ tr2 ++ tr3 ++ [.invokeTextModel prompt cfg.textModelId 200])
              | .ok answer =>
                  (.ok (.inl answer),
                   tr1 ++ tr2 ++ tr3 ++ [.invokeTextModel prompt cfg.textModelId 200])

/-- The `get_prediction` result as the JSON value stored under
`"response"` in the final body: an answer string stays a string; a
response dictionary becomes the corresponding JSON object. -/
def predictionToJVal : Sum String HttpResponse → JVal
  | .inl s => .s s
  | .inr r =>
      .obj
        [ ("statusCode", .n r.statusCode)
        , ("headers", .obj (r.headers.map fun kv => (kv.1, .s kv.2)))
        , ("body", .s r.body) ]

/-- `lambda_handler` (rag_api `index.py`, lines 29-54): parses and
validates the request body, then runs the pipeline and the speech
synthesis and wraps both results.  `body` is the already-parsed JSON
request body (`json.loads(event["body"])`).  An exception escaping
`get_prediction` escapes the handler (`.error`). -/
def lambda_handler (body : JVal) (cfg : Config) (env : Env) :
    Except PyErr HttpResponse × List Call :=
  match validate_inputs body with
  | some resp => (.ok resp, [])
  | none =>
      let question := jStrD (jlookup body "question") ""
      let voiceId := jStrD (jlookup body "voice_id") "Ruth"
      let voiceEngine := jStrD (jlookup body "voice_engine") "neural"
      let (pred, tr1) := get_prediction cfg question env
      match pred with
      | .error e => (.error e, tr1)
      | .ok answer =>
          let (speechKvs, tr2) := synthesize_speech answer voiceId voiceEngine env
          (.ok (build_response (.obj
             [ ("response", predictionToJVal answer)
             , ("speech_info", .obj speechKvs) ])),
           tr1 ++ tr2)

namespace TextApi

/-- `build_response` (text_api `index.py`, lines 50-57): identical HTTP
envelope to the rag_api one. -/
def build_response (body : JVal) : HttpResponse :=
  { statusCode := 200
  , headers := [("Content-Type", "application/json")]
  , body := dumps body }

end TextApi

/-- A concrete process configuration used to evaluate the pipeline at
specific inputs. -/
def cfg0 : Config :=
  { textModelId := "anthropic.claude-v2"
  , embeddingModelId := "amazon.titan-embed-text-v1"
  , opensearchEndpoint := "search.example.com"
  , opensearchSecret := "opensearch-secret"
  , opensearchIndex := "rag-index"
  , region := "us-east-1" }

/-- A concrete search hit. -/
def hit0 : Hit :=
  { score := 9, file_name := "lore.txt", passage := "Ada is an assistant." }

/-- An oracle on which every remote call succeeds: the secret store
returns credentials, the HEAD probe returns 200, the embedding model
returns a vector, the search returns one hit, the text model returns an
answer, and both Polly calls return byte buffers. -/
def env0 : Env :=
  { secretResult := .ok ("admin", "pw")
  , headStatus := .ok 200
  , embedResult := .ok [1, 2, 3]
  , searchResult := .ok { hits := [hit0] }
  , generateResult := .ok "Arr, I be called Ada!"
  , soundResult := .ok [77, 97, 110]
  , visemeResult := .ok [123] }

/-- Like `env0`, but the k-NN search returns zero hits. -/
def envEmptyHits : Env := { env0 with searchResult := .ok { hits := [] } }

/-- Like `env0`, but the secret store raises a `ClientError`. -/
def envSecretError : Env :=
  { env0 with secretResult := .error "Secrets Manager can\x27t find the specified secret." }

/-- Like `env0`, but the embedding model raises a `ClientError` and the
search endpoint rejects the malformed query it subsequently receives. -/
def envEmbedError : Env :=
  { env0 with
    embedResult := .error "The provided model identifier is invalid."
  , searchResult := .error (.exn "RequestError" "search request rejected") }

/-- Like `env0`, but the index HEAD probe returns 404. -/
def envHeadFail : Env := { env0 with headStatus := .ok 404 }

/-- Like `env0`, but the audio synthesis call raises. -/
def envSoundError : Env :=
  { env0 with soundResult := .error (.exn "BotoCoreError" "An unspecified error occurred") }

/-- For sextet values the decoder inverts the encoder's alphabet. -/
theorem b64val_b64char_fin : ∀ m : Fin 64, b64val (b64char m.val) = some m.val := by decide

/-- `b64val` inverts `b64char` on every value below 64. -/
theorem b64val_b64char (n : Nat) (h : n < 64) : b64val (b64char n) = some n :=
  b64val_b64char_fin ⟨n, h⟩

/-- No alphabet character is the padding character. -/
theorem b64char_ne_pad_fin : ∀ m : Fin 64, b64char m.val ≠ '=' := by decide

/-- `b64char n` is never `=` for `n < 64`. -/
theorem b64char_ne_pad (n : Nat) (h : n < 64) : b64char n ≠ '=' :=
  b64char_ne_pad_fin ⟨n, h⟩

/-- C9: for every byte buffer produced by the speech synthesizer,
base64-encoding it (as `synthesize_speech` does via `b64encodeStr` for
the audio and viseme payloads) and then base64-decoding the result
reproduces the original bytes exactly. -/
theorem c9_base64_roundtrip (bs : List (Fin 256)) :
    b64decode (b64encode bs) = some (bs.map Fin.val) := by
  induction bs using b64encode.induct with
  | case1 => rfl
  | case2 b1 =>
      have h1 := b1.isLt
      have e1 := b64val_b64char (b1.val / 4) (by omega)
      have e2 := b64val_b64char (b1.val % 4 * 16) (by omega)
      simp [b64encode, b64decode, e1, e2]
      omega
  | case3 b1 b2 =>
      have h1 := b1.isLt
      have h2 := b2.isLt
      have e1 := b64val_b64char (b1.val / 4) (by omega)
      have e2 := b64val_b64char (b1.val % 4 * 16 + b2.val / 16) (by omega)
      have e3 := b64val_b64char (b2.val % 16 * 4) (by omega)
      have n3 := b64char_ne_pad (b2.val % 16 * 4) (by omega)
      simp [b64encode, b64decode, e1, e2, e3, n3]
      constructor <;> omega
  | case4 b1 b2 b3 rest ih =>
      have h1 := b1.isLt
      have h2 := b2.isLt
      have h3 := b3.isLt
      have e1 := b64val_b64char (b1.val / 4) (by omega)
      have e2 := b64val_b64char (b1.val % 4 * 16 + b2.val / 16) (by omega)
      have e3 := b64val_b64char (b2.val % 16 * 4 + b3.val / 64) (by omega)
      have e4 := b64val_b64char (b3.val % 64) (by omega)
      have n3 := b64char_ne_pad (b2.val % 16 * 4 + b3.val / 64) (by omega)
      have n4 := b64char_ne_pad (b3.val % 64) (by omega)
      simp [b64encode, b64decode, e1, e2, e3, e4, n3, n4, ih]
      refine ⟨by omega, by omega, by omega⟩

/-- C1: the claim says a request whose k-NN search returns an empty hit
list yields a structured "no relevant context found" error response from
`get_prediction`.  The code instead evaluates `hits[0]` unguarded, so at
this concrete input (credentials, index probe and embedding all succeed,
the search returns zero hits) the pipeline raises an unhandled
`IndexError` — the latent defect the spec itself flags in §7. -/
theorem c1_empty_hit_list_raises_index_error :
    get_prediction cfg0 "What is your name?" envEmptyHits =
      (.error (.indexError "list index out of range"),
       [ .secretLookup "opensearch-secret" "us-east-1"
       , .headProbe "https://search.example.com/rag-index" "admin" "pw" 10
       , .invokeEmbedding "What is your name?" "amazon.titan-embed-text-v1"
       , .searchPost "https://search.example.com/rag-index/_search" "admin" "pw"
           { size := 3, vector := .inl [1, 2, 3], k := 3 } 10 ]) := by decide

/-- C3: the claim says a secret-store `ClientError` yields a structured
error response carrying the store's message, with no unhandled
exception.  `get_credentials` does build that response, but
`get_prediction` unpacks the returned value as
`username, password = ...`: the error-response dictionary has three keys
(`statusCode`, `headers`, `body`), so the unpacking raises an unhandled
`ValueError` at this concrete input.  No later pipeline stage runs (the
trace stops at the secret lookup), but the structured error response is
lost. -/
theorem c3_secret_store_error_crashes_unpacking :
    get_prediction cfg0 "What is your name?" envSecretError =
      (.error (.valueError "too many values to unpack (expected 2)"),
       [.secretLookup "opensearch-secret" "us-east-1"]) := by decide

/-- C4: the claim says a failed embedding invocation aborts the pipeline
and no k-NN search is issued with the failed result.  In the code
`get_hits` embeds `get_embedding`'s return value directly into the query
body, so when the embedding call fails the error-response dictionary is
inserted as the `vector` field and the search POST is still issued, as
this concrete evaluation shows: the trace contains the search call whose
query carries the error dictionary instead of a vector. -/
theorem c4_failed_embedding_still_issues_search :
    get_hits "amazon.titan-embed-text-v1" "What is your name?"
        "https://search.example.com/rag-index/_search" "admin" "pw" envEmbedError =
      (.error (.exn "RequestError" "search request rejected"),
       [ .invokeEmbedding "What is your name?" "amazon.titan-embed-text-v1"
       , .searchPost "https://search.example.com/rag-index/_search" "admin" "pw"
           { size := 3
           , vector := .inr (build_response (.obj
               [("status", .s "error"),
                ("message", .s "The provided model identifier is invalid.")]))
           , k := 3 } 10 ]) := by decide

/-- C2: whenever the credentials resolve but the index HEAD probe
returns a non-200 status, `get_prediction` returns the response stating
the vector store is not hydrated, its call trace contains no embedding
and no search call, and the full handler's call trace for the request
contains none either. -/
theorem c2_failed_index_check_blocks_retrieval
    (cfg : Config) (question : String) (body : JVal) (env : Env)
    (u p : String) (status : Nat)
    (hcred : env.secretResult = .ok (u, p))
    (hhead : env.headStatus = .ok status) (hne : status ≠ 200) :
    (get_prediction cfg question env).1 = .ok (.inr (build_response notHydratedBody))
    ∧ (get_prediction cfg question env).2.filter Call.isEmbeddingCall = []
    ∧ (get_prediction cfg question env).2.filter Call.isSearchCall = []
    ∧ (lambda_handler body cfg env).2.filter Call.isEmbeddingCall = []
    ∧ (lambda_handler body cfg env).2.filter Call.isSearchCall = [] := by
  have hpred : ∀ q : String, get_prediction cfg q env =
      (.ok (.inr (build_response notHydratedBody)),
       [.secretLookup cfg.opensearchSecret cfg.region,
        .headProbe ((if startswithHttps cfg.opensearchEndpoint then cfg.opensearchEndpoint
          else "https://" ++ cfg.opensearchEndpoint) ++ "/" ++ cfg.opensearchIndex) u p 10]) := by
    intro q
    simp [get_prediction, get_credentials, verify_index, hcred, hhead, hne]
  refine ⟨by rw [hpred], by rw [hpred]; rfl, by rw [hpred]; rfl, ?_, ?_⟩ <;>
  · simp only [lambda_handler]
    rcases hv : validate_inputs body with _ | resp
    · simp only [hv]
      rw [hpred]
      simp [synthesize_speech, Call.isEmbeddingCall, Call.isSearchCall, List.filter]
    · simp [hv]

/-- C2 witness: a concrete request against an environment whose HEAD
probe answers 404. -/
theorem c2_failed_index_check_blocks_retrieval_witness :
    (get_prediction cfg0 "hi" envHeadFail).1 = .ok (.inr (build_response notHydratedBody))
    ∧ (get_prediction cfg0 "hi" envHeadFail).2.filter Call.isEmbeddingCall = []
    ∧ (get_prediction cfg0 "hi" envHeadFail).2.filter Call.isSearchCall = []
    ∧ (lambda_handler (.obj [("question", JVal.s "hi")]) cfg0 envHeadFail).2.filter
        Call.isEmbeddingCall = []
    ∧ (lambda_handler (.obj [("question", JVal.s "hi")]) cfg0 envHeadFail).2.filter
        Call.isSearchCall = [] :=
  c2_failed_index_check_blocks_retrieval cfg0 "hi" (.obj [("question", JVal.s "hi")])
    envHeadFail "admin" "pw" 404 rfl rfl (by decide)

/-- C5: for every request whose pipeline successfully generates an
answer, a raised exception in the audio synthesis call does not prevent
the answer from being returned: the handler's response body is
`build_response` of an object whose top level has no `status` field,
whose `response` field is the answer, and whose `speech_info` has
`sound_status = "error"` with the formatted exception detail in
`sound_error`; the viseme channel is still attempted (its Polly call is
in the trace) and reported independently (`viseme_status` is present
either way). -/
theorem c5_sound_failure_keeps_answer
    (cfg : Config) (body : JVal) (env : Env) (q ans u p : String) (vec : Vector)
    (r : SearchResponse) (h0 : Hit) (hs : List Hit) (e : PyErr)
    (hq : jlookup body "question" = some (.s q))
    (hcred : env.secretResult = .ok (u, p))
    (hhead : env.headStatus = .ok 200)
    (hemb : env.embedResult = .ok vec)
    (hsearch : env.searchResult = .ok r)
    (hhits : r.hits = h0 :: hs)
    (hgen : env.generateResult = .ok ans)
    (hsound : env.soundResult = .error e) :
    ∃ kvs,
      (lambda_handler body cfg env).1 =
        .ok (build_response (.obj [("response", .s ans), ("speech_info", .obj kvs)]))
      ∧ kvs.lookup "sound_status" = some (.s "error")
      ∧ kvs.lookup "sound_error" =
          some (.s ("Audio Exception: " ++ e.typeName ++ " Message: " ++ e.message))
      ∧ jlookup (.obj [("response", .s ans), ("speech_info", .obj kvs)]) "status" = none
      ∧ (kvs.lookup "viseme_status").isSome
      ∧ (Call.pollyViseme (.inl ans) (jStrD (jlookup body "voice_id") "Ruth")
           (jStrD (jlookup body "voice_engine") "neural")) ∈ (lambda_handler body cfg env).2 := by
  have hjq : jStrD (jlookup body "question") "" = q := by rw [hq]; rfl
  refine ⟨(synthesize_speech (.inl ans) (jStrD (jlookup body "voice_id") "Ruth")
            (jStrD (jlookup body "voice_engine") "neural") env).1, ?_, ?_, ?_, ?_, ?_, ?_⟩
  · rcases hv : env.visemeResult with buf | ev <;>
      simp [lambda_handler, validate_inputs, hq, hjq, get_prediction, get_credentials,
            verify_index, get_hits, get_embedding, synthesize_speech, predictionToJVal,
            hcred, hhead, hemb, hsearch, hhits, hgen, hsound, hv]
  · rcases hv : env.visemeResult with buf | ev <;>
      simp [synthesize_speech, hsound, hv, List.lookup]
  · rcases hv : env.visemeResult with buf | ev <;>
      simp [synthesize_speech, hsound, hv, List.lookup]
  · simp [jlookup, List.lookup]
  · rcases hv : env.visemeResult with buf | ev <;>
      simp [synthesize_speech, hsound, hv, List.lookup]
  · rcases hv : env.visemeResult with buf | ev <;>
      simp [lambda_handler, validate_inputs, hq, hjq, get_prediction, get_credentials,
            verify_index, get_hits, get_embedding, synthesize_speech, predictionToJVal,
            hcred, hhead, hemb, hsearch, hhits, hgen, hsound, hv]

/-- C5 witness: a concrete successful pipeline whose audio synthesis
raises. -/
theorem c5_sound_failure_keeps_answer_witness :
    ∃ kvs,
      (lambda_handler (.obj [("question", JVal.s "What is your name?")]) cfg0 envSoundError).1 =
        .ok (build_response (.obj
          [("response", .s "Arr, I be called Ada!"), ("speech_info", .obj kvs)]))
      ∧ kvs.lookup "sound_status" = some (.s "error")
      ∧ kvs.lookup "sound_error" =
          some (.s ("Audio Exception: " ++ (PyErr.exn "BotoCoreError" "An unspecified error occurred").typeName
            ++ " Message: " ++ (PyErr.exn "BotoCoreError" "An unspecified error occurred").message))
      ∧ jlookup (.obj [("response", .s "Arr, I be called Ada!"), ("speech_info", .obj kvs)])
          "status" = none
      ∧ (kvs.lookup "viseme_status").isSome
      ∧ (Call.pollyViseme (.inl "Arr, I be called Ada!")
           (jStrD (jlookup (.obj [("question", JVal.s "What is your name?")]) "voice_id") "Ruth")
           (jStrD (jlookup (.obj [("question", JVal.s "What is your name?")]) "voice_engine") "neural"))
          ∈ (lambda_handler (.obj [("question", JVal.s "What is your name?")]) cfg0 envSoundError).2 :=
  c5_sound_failure_keeps_answer cfg0 (.obj [("question", JVal.s "What is your name?")])
    envSoundError "What is your name?" "Arr, I be called Ada!" "admin" "pw" [1, 2, 3]
    { hits := [hit0] } hit0 [] (.exn "BotoCoreError" "An unspecified error occurred")
    rfl rfl rfl rfl rfl rfl rfl rfl

/-- C6: for every request body (a JSON object) lacking the `question`
field, `lambda_handler` returns exactly the validation error response
and its call trace is empty — no credential fetch, index check,
embedding, search, generation, or speech synthesis call occurs. -/
theorem c6_missing_question_validation_no_calls
    (cfg : Config) (env : Env) (kvs : List (String × JVal))
    (hq : kvs.lookup "question" = none) :
    lambda_handler (.obj kvs) cfg env =
      (.ok (build_response (.obj [("status", .s "error"),
          ("message", .s "question missing in request payload")])), []) := by
  simp [lambda_handler, validate_inputs, jlookup, hq]

/-- C6 witness: a concrete request body without a `question` field. -/
theorem c6_missing_question_validation_no_calls_witness :
    List.lookup "question" [("voice_id", JVal.s "Ruth")] = none
    ∧ lambda_handler (.obj [("voice_id", JVal.s "Ruth")]) cfg0 env0 =
        (.ok (build_response (.obj [("status", .s "error"),
            ("message", .s "question missing in request payload")])), []) :=
  ⟨rfl, c6_missing_question_validation_no_calls cfg0 env0 [("voice_id", JVal.s "Ruth")] rfl⟩

/-- C7: for every successful pipeline run with a non-empty hit list, the
trace contains exactly one text-model invocation, and its prompt is the
pure string composition of the fixed template around exactly one context
passage — the passage of the first hit of the returned set — and the
literal question text verbatim. -/
theorem c7_prompt_contains_top_passage_and_question
    (cfg : Config) (q ans u p : String) (vec : Vector) (r : SearchResponse)
    (h0 : Hit) (hs : List Hit) (env : Env)
    (hcred : env.secretResult = .ok (u, p))
    (hhead : env.headStatus = .ok 200)
    (hemb : env.embedResult = .ok vec)
    (hsearch : env.searchResult = .ok r)
    (hhits : r.hits = h0 :: hs)
    (hgen : env.generateResult = .ok ans) :
    (get_prediction cfg q env).2.filter Call.isTextModelCall =
      [.invokeTextModel (promptPre ++ h0.passage ++ promptMid ++ q ++ promptSuf)
        cfg.textModelId 200]
    ∧ (get_prediction cfg q env).1 = .ok (.inl ans) := by
  simp [get_prediction, get_credentials, verify_index, get_hits, get_embedding,
        hcred, hhead, hemb, hsearch, hhits, hgen, List.filter, Call.isTextModelCall,
        Call.isEmbeddingCall, Call.isSearchCall]

/-- C7 witness: the concrete all-success environment. -/
theorem c7_prompt_contains_top_passage_and_question_witness :
    (get_prediction cfg0 "What is your name?" env0).2.filter Call.isTextModelCall =
      [.invokeTextModel
        (promptPre ++ hit0.passage ++ promptMid ++ "What is your name?" ++ promptSuf)
        cfg0.textModelId 200]
    ∧ (get_prediction cfg0 "What is your name?" env0).1 = .ok (.inl "Arr, I be called Ada!") :=
  c7_prompt_contains_top_passage_and_question cfg0 "What is your name?"
    "Arr, I be called Ada!" "admin" "pw" [1, 2, 3] { hits := [hit0] } hit0 [] env0
    rfl rfl rfl rfl rfl rfl

/-- C8: for every query whose embedding call succeeds and whose search
POST completes, `get_hits` first invokes the embedding model on the
query text and then issues exactly one k-NN search request with a result
size of 3, a knn `k` of 3 and a 10-second client timeout, and returns
the hit list of the response. -/
theorem c8_get_hits_embeds_then_searches
    (modelId q url u p : String) (env : Env) (vec : Vector) (r : SearchResponse)
    (hemb : env.embedResult = .ok vec) (hsearch : env.searchResult = .ok r) :
    get_hits modelId q url u p env =
      (.ok r.hits,
       [.invokeEmbedding q modelId,
        .searchPost url u p { size := 3, vector := .inl vec, k := 3 } 10]) := by
  simp [get_hits, get_embedding, hemb, hsearch]

/-- C8 witness: concrete query against the all-success environment. -/
theorem c8_get_hits_embeds_then_searches_witness :
    get_hits "amazon.titan-embed-text-v1" "What is your name?"
        "https://search.example.com/rag-index/_search" "admin" "pw" env0 =
      (.ok (SearchResponse.mk [hit0]).hits,
       [.invokeEmbedding "What is your name?" "amazon.titan-embed-text-v1",
        .searchPost "https://search.example.com/rag-index/_search" "admin" "pw"
          { size := 3, vector := .inl [1, 2, 3], k := 3 } 10]) :=
  c8_get_hits_embeds_then_searches "amazon.titan-embed-text-v1" "What is your name?"
    "https://search.example.com/rag-index/_search" "admin" "pw" env0 [1, 2, 3]
    { hits := [hit0] } rfl rfl

/-- C10: every response the handlers build carries HTTP status code 200
and a Content-Type of application/json, with the body the JSON
serialization of the passed dictionary — for the rag_api and text_api
`build_response` alike — and every response `lambda_handler` returns
without an unhandled exception is in the image of `build_response`, so
success and error outcomes share the same HTTP envelope and are
distinguished only inside the body. -/
theorem c10_responses_use_http_200_envelope (b : JVal) :
    (build_response b).statusCode = 200
  ∧ (build_response b).headers = [("Content-Type", "application/json")]
  ∧ (build_response b).body = dumps b
  ∧ (TextApi.build_response b).statusCode = 200
  ∧ (TextApi.build_response b).headers = [("Content-Type", "application/json")]
  ∧ (TextApi.build_response b).body = dumps b
  ∧ ∀ body cfg env r tr, lambda_handler body cfg env = (.ok r, tr) →
      ∃ j, r = build_response j := by
  refine ⟨rfl, rfl, rfl, rfl, rfl, rfl, ?_⟩
  intro body cfg env r tr h
  unfold lambda_handler at h
  split at h
  next resp hv =>
    simp only [Prod.mk.injEq, Except.ok.injEq] at h
    unfold validate_inputs at hv
    split at hv
    · exact absurd hv (by simp)
    · simp only [Option.some.injEq] at hv
      exact ⟨_, h.1.symm.trans hv.symm⟩
  next hv =>
    simp only [] at h
    rcases hp : get_prediction cfg (jStrD (jlookup body "question") "") env with ⟨pred, tr1⟩
    rw [hp] at h
    rcases pred with e | answer
    · simp at h
    · simp only [Prod.mk.injEq, Except.ok.injEq] at h
      exact ⟨_, h.1.symm⟩

/-- C10 witness: the envelope facts at a concrete body, and a concrete
handler run whose response is exhibited in the image of
`build_response`. -/
theorem c10_responses_use_http_200_envelope_witness :
    (build_response (.obj [])).statusCode = 200
  ∧ ∃ j, build_response (.obj [("status", JVal.s "error"),
      ("message", JVal.s "question missing in request payload")]) = build_response j :=
  ⟨(c10_responses_use_http_200_envelope (.obj [])).1,
   (c10_responses_use_http_200_envelope (.obj [])).2.2.2.2.2.2 (.obj []) cfg0 env0
     (build_response (.obj [("status", JVal.s "error"),
       ("message", JVal.s "question missing in request payload")])) [] rfl⟩
